import Mathlib

/-!
Verification development for the apexlang code-generation CLI.

Go strings are modelled as lists of characters (`GoString`), Go byte slices
as lists of naturals, Go maps as association lists with first-match lookup
and prepend-on-store (observationally equal to Go map assignment), and Go
errors as `GoErr` mirroring `go.uber.org/multierr` flattening semantics.
External collaborators (esbuild, v8go, wazero module internals, the
filesystem) are modelled as oracle functions recorded per call site; all
host-side logic (validation, merging, probing, pointer layout, scanning,
aggregation) is translated from the source.
-/

set_option maxRecDepth 20000

abbrev GoString := List Char

/-- Byte sequence, as used for UTF-8 encoded buffers crossing the wasm boundary. -/
abbrev Bytes := List Nat

/-- Split a character list at every occurrence of the separator character,
mirroring Go `strings.Split` with a one-character separator. -/
def splitOnChar (c : Char) : GoString → List GoString
  | [] => [[]]
  | x :: rest =>
    let r := splitOnChar c rest
    if x = c then [] :: r
    else
      match r with
      | [] => [[x]]
      | h :: t => (x :: h) :: t

/-- Join a list of strings with a separator, mirroring Go `strings.Join`. -/
def intercalateGS (sep : GoString) : List GoString → GoString
  | [] => []
  | [x] => x
  | x :: rest => x ++ sep ++ intercalateGS sep rest

/-- Scanner for `goIndex`: first position at or after `i` where `sub`
starts. -/
def goIndexAux (sub : GoString) : GoString → Nat → Option Nat
  | [], i => if sub.isPrefixOf [] then some i else none
  | c :: rest, i =>
    if sub.isPrefixOf (c :: rest) then some i else goIndexAux sub rest (i + 1)

/-- Index of the first occurrence of `sub` in `s` (character positions),
mirroring Go `strings.Index` for a non-empty pattern. -/
def goIndex (s sub : GoString) : Option Nat :=
  goIndexAux sub s 0

/-- Index of the last occurrence of `sub` in `s` (character positions),
mirroring Go `strings.LastIndex`; `none` plays the role of Go's `-1`. -/
def goLastIndex (s sub : GoString) : Option Nat :=
  ((List.range (s.length + 1)).filter (fun i => sub.isPrefixOf (s.drop i))).getLast?

/-- Replace the first occurrence of `old` by `new`, mirroring
`strings.Replace(s, old, new, 1)` for non-empty `old`. -/
def replaceFirst (s old new : GoString) : GoString :=
  match goIndex s old with
  | none => s
  | some i => s.take i ++ new ++ s.drop (i + old.length)

/-- Substring containment test built on `goIndex`. -/
def containsSub (s sub : GoString) : Bool :=
  (goIndex s sub).isSome

/-- Strip trailing spaces and tabs, mirroring `strings.TrimRight(s, " \t")`. -/
def trimRightST (s : GoString) : GoString :=
  (s.reverse.dropWhile (fun c => c == ' ' || c == '\t')).reverse

/-- Go `filepath.Ext`: the suffix of the final slash-separated element
starting at its final dot, scanning backwards; empty when there is no dot. -/
def goExtLoop : List Char → List Char → Option (List Char)
  | [], _ => none
  | c :: rest, acc =>
    if c = '/' then none
    else if c = '.' then some (c :: acc)
    else goExtLoop rest (c :: acc)

/-- Go `filepath.Ext` over the character-list string model. -/
def goExt (p : GoString) : GoString :=
  (goExtLoop p.reverse []).getD []

/-- Decimal digit accumulation for `strconv.Atoi`. -/
def digitsToNatAux : List Char → Nat → Option Nat
  | [], acc => some acc
  | c :: rest, acc =>
    if c.isDigit then digitsToNatAux rest (acc * 10 + (c.toNat - '0'.toNat))
    else none

/-- Go `strconv.Atoi`: optional sign followed by at least one decimal digit.
The 64-bit range error is not modelled; no claim involves such magnitudes. -/
def goAtoi (s : GoString) : Option Int :=
  match s with
  | [] => none
  | '-' :: rest =>
    if rest = [] then none else (digitsToNatAux rest 0).map (fun n => -(n : Int))
  | '+' :: rest =>
    if rest = [] then none else (digitsToNatAux rest 0).map (fun n => (n : Int))
  | _ => (digitsToNatAux s 0).map (fun n => (n : Int))

/-- Rendering of a Go `int` by `fmt.Sprintf("%d", _)`. -/
def intToGS : Int → GoString
  | Int.ofNat n => Nat.toDigits 10 n
  | Int.negSucc n => '-' :: Nat.toDigits 10 (n + 1)

/-- Go error values as carried by the orchestrator.  `multi` is the
flattened `multierr` combined error holding the individual messages. -/
inductive GoErr where
  | single (msg : GoString)
  | multi (msgs : List GoString)
deriving DecidableEq

/-- Message list of an error, as `multierr.Append` flattens its operands. -/
def GoErr.toMsgs : GoErr → List GoString
  | .single m => [m]
  | .multi ms => ms

/-- `err.Error()`: a combined `multierr` error joins messages with `"; "`. -/
def goErrMessage : GoErr → GoString
  | .single m => m
  | .multi ms => intercalateGS "; ".data ms

/-- `multierr.Append(l, r)` for non-nil `r`, with `Option` as Go's nil error. -/
def merrAppend (l : Option GoErr) (r : GoErr) : GoErr :=
  match l with
  | none => r
  | some le => .multi (le.toMsgs ++ r.toMsgs)

/-- `appendAndPrintError` (generate.go:880): format the message, print it as
it is collected, and append it to the aggregate. -/
def appendAndPrintError (merr : Option GoErr) (msg : GoString) : Option GoErr :=
  some (merrAppend merr (.single msg))

/-- The `errorGroup` type assertion in `GenerateCmd.Run` (generate.go:523):
only a combined `multierr` value implements `Errors() []error`. -/
def errorGroupErrors : GoErr → Option (List GoString)
  | .single _ => none
  | .multi ms => some ms

/-- Final error selection of `GenerateCmd.Run` (generate.go:521-536).
`readConfigsErr` is the variable `err` inspected by the type assertion at
line 523; on every path reaching this block that variable is the nil result
of `readConfigs` (a non-nil value caused an early return at line 511). -/
def generateCmdRunFinal (readConfigsErr : Option GoErr) (merr : Option GoErr) :
    Option GoErr :=
  match merr with
  | none => none
  | some m =>
    let errs : List GoErr :=
      match readConfigsErr with
      | none => [m]
      | some e =>
        match errorGroupErrors e with
        | some ms => ms.map GoErr.single
        | none => [m]
    match errs with
    | [e] => some e
    | es =>
      some (.single ("generation failed due to ".data ++
        Nat.toDigits 10 es.length ++ " error(s)".data))

/-- `GenerateCmd.Run` (generate.go:514-536): accumulate each per-config
`generate` failure with `multierr.Append`, then run the final selection with
the (necessarily nil) `readConfigs` error as the asserted variable. -/
def generateCmdRun (configResults : List (Option GoErr)) : Option GoErr :=
  let merr := configResults.foldl
    (fun acc r =>
      match r with
      | none => acc
      | some e => some (merrAppend acc e)) none
  generateCmdRunFinal none merr

/-- Behavior of the instantiated astyle wasm module as observed by one
`Astyle` call: the results of `alloc_buffer` and `wastyle` invocations, and
the linear memory contents and size as seen by the host after the `wastyle`
call (the host's own pre-call writes, whose reported success the code
discards, are folded into this post-call view since the module may rewrite
memory arbitrarily). -/
structure WasmRun where
  alloc : Nat → Except GoString Nat
  format : Nat → Nat → Nat → Except GoString Nat
  mem : Nat → Nat
  memSize : Nat

/-- Truncation to 32 bits, as in Go `uint32` conversions. -/
def u32 (n : Nat) : Nat := n % 2 ^ 32

/-- Go `uint32` subtraction with wraparound. -/
def u32sub (a b : Nat) : Nat := (u32 a + 2 ^ 32 - u32 b) % 2 ^ 32

/-- wazero `Memory.ReadUint32Le`: little-endian 32-bit read, failing when
the 4-byte window exceeds the memory size. -/
def readUint32Le (m : WasmRun) (addr : Nat) : Option Nat :=
  if addr + 4 ≤ m.memSize then
    some (m.mem addr + 2 ^ 8 * m.mem (addr + 1) +
      2 ^ 16 * m.mem (addr + 2) + 2 ^ 24 * m.mem (addr + 3))
  else none

/-- wazero `Memory.Read`: view of `size` bytes at `offset`, failing when the
window exceeds the memory size. -/
def memRead (m : WasmRun) (offset size : Nat) : Option Bytes :=
  if offset + size ≤ m.memSize then
    some ((List.range size).map (fun i => m.mem (offset + i)))
  else none

/-- The scan loop `for resultBuf[i] != 0 { i++ }`: bytes before the first
NUL, or `none` when no NUL exists and the loop indexes out of range. -/
def scanNul : Bytes → Option Bytes
  | [] => none
  | b :: rest => if b = 0 then some [] else (scanNul rest).map (fun l => b :: l)

/-- Failure modes of `Astyle` (astyle.go), one per `return` carrying an
error, plus the out-of-range panic of the NUL scan. -/
inductive AstyleErr where
  | allocErr (msg : GoString)
  | formatCallErr (msg : GoString)
  | resultPtrReadErr
  | resultBufReadErr
  | indexPanic
  | formatError (text : Bytes)
deriving DecidableEq

/-- Result of one `Astyle` call together with the sequence of pointers
passed to the module's `free_buffer` export during the call. -/
structure AstyleOutput where
  result : Except AstyleErr Bytes
  frees : List Nat

/-- `Astyle(source, options)` (astyle.go:17-105) from the point where the
module exports are resolved: buffer sizing, manual layout, the `wastyle`
call, little-endian result-slot read, NUL-terminated extraction, the free
calls, and the success-flag check. -/
def Astyle (m : WasmRun) (sourceUTF8 optionsUTF8 : Bytes) : AstyleOutput :=
  let bufferSize := u32 (sourceUTF8.length + 1 + optionsUTF8.length + 1 + 4)
  match m.alloc bufferSize with
  | .error e => ⟨.error (.allocErr e), []⟩
  | .ok res =>
    let bufferPointer := u32 res
    let resultPointer := bufferPointer
    let sourcePointer := u32 (resultPointer + 4)
    let optionsPointer := u32 (sourcePointer + sourceUTF8.length + 1)
    match m.format sourcePointer optionsPointer resultPointer with
    | .error e => ⟨.error (.formatCallErr e), []⟩
    | .ok result =>
      let success := result = 1
      match readUint32Le m resultPointer with
      | none => ⟨.error .resultPtrReadErr, []⟩
      | some formattedPointer =>
        match memRead m formattedPointer (u32sub m.memSize formattedPointer) with
        | none => ⟨.error .resultBufReadErr, []⟩
        | some resultBuf =>
          match scanNul resultBuf with
          | none => ⟨.error .indexPanic, []⟩
          | some formattedBytes =>
            let frees :=
              bufferPointer :: (if formattedPointer ≠ 0 then [formattedPointer] else [])
            if success then ⟨.ok formattedBytes, frees⟩
            else ⟨.error (.formatError formattedBytes), frees⟩

/-- A module run whose `wastyle` call traps: `alloc_buffer` hands out
pointer 64, then the `format.Call` returns an error. -/
def wasmTrap : WasmRun where
  alloc := fun _ => .ok 64
  format := fun _ _ _ => .error "wasm trap".data
  mem := fun _ => 0
  memSize := 1024

/-- A successful module run used to witness the freeing discipline on the
extraction path: base pointer 8, result slot pointing at 32, text "hi". -/
def wasmFreeOk : WasmRun where
  alloc := fun _ => .ok 8
  format := fun _ _ _ => .ok 1
  mem := fun a => if a = 8 then 32 else if a = 32 then 104 else if a = 33 then 105 else 0
  memSize := 36

/-- A successful module run for the extraction theorem witness: identical
layout, distinct fixture so the two claims share no declaration fate. -/
def wasmExtract : WasmRun where
  alloc := fun _ => .ok 8
  format := fun _ _ _ => .ok 1
  mem := fun a => if a = 8 then 32 else if a = 32 then 104 else if a = 33 then 105 else 0
  memSize := 36

/-- Filesystem oracle for the resolver callback: `stat` yields the IsDir
flag or an error message, `readFile` yields contents or an error message. -/
structure FS where
  stat : GoString → Except GoString Bool
  readFile : GoString → Except GoString GoString

/-- Probing phase of `resolverCallback` (generate.go:649-670): when the
mapped location lacks the `.apex` extension, probe `loc + ".apex"` as a
file; only when that probe fails, stat the bare location, appending
`index.apex` for a directory and `.apex` otherwise; a failing bare stat
yields the stat error message. -/
def resolveLocation (fs : FS) (loc : GoString) : Except GoString GoString :=
  if goExt loc = ".apex".data then .ok loc
  else
    let specLoc := loc ++ ".apex".data
    let found : Bool :=
      match fs.stat specLoc with
      | .ok isDir => !isDir
      | .error _ => false
    if found then .ok specLoc
    else
      match fs.stat loc with
      | .error e => .error e
      | .ok isDir =>
        .ok (if isDir then loc ++ "/index.apex".data else loc ++ ".apex".data)

/-- `resolverCallback` (generate.go:638-680): sentinel error for a missing
argument; otherwise map the logical path (the `filepath.Join` against the
definitions directory is the `mapPath` parameter), probe, and read, turning
every failure into an `"error: "`-prefixed string. -/
def resolverCallback (fs : FS) (mapPath : GoString → GoString)
    (args : List GoString) : GoString :=
  match args with
  | [] => "error: resolve: invalid arguments".data
  | location :: _ =>
    match resolveLocation fs (mapPath location) with
    | .error e => "error: ".data ++ e
    | .ok loc =>
      match fs.readFile loc with
      | .error e => "error: ".data ++ e
      | .ok data => data

/-- The sandbox-side `resolver` function of the generated entry script
(generate.go:472-478): a result starting with `"error: "` is raised as a
script exception carrying `source.substring(7)`; anything else is returned
unchanged. -/
def jsResolver (source : GoString) : Except GoString GoString :=
  if "error: ".data.isPrefixOf source then .error (source.drop 7)
  else .ok source

/-- Values held in the generation config maps; string values and one opaque
numeric stand-in are enough for every claim about the merge. -/
inductive GoVal where
  | str (s : GoString)
  | num (n : Int)
deriving DecidableEq

/-- A Go `map[string]interface{}` modelled as an association list with
first-match lookup; stores prepend, so the newest binding shadows. -/
abbrev GoMap := List (GoString × GoVal)

/-- Map lookup, first match. -/
def mapGet : GoMap → GoString → Option GoVal
  | [], _ => none
  | (k', v) :: rest, k => if k' = k then some v else mapGet rest k

/-- Map store `m[k] = v`: with first-match lookup, prepending realises Go's
overwrite semantics. -/
def mapSet (m : GoMap) (k : GoString) (v : GoVal) : GoMap :=
  (k, v) :: m

/-- `for k, v := range src { m[k] = v }`. -/
def insertAll (m : GoMap) (src : GoMap) : GoMap :=
  src.foldl (fun acc kv => mapSet acc kv.1 kv.2) m

/-- The pre-merge of shared config into the target config
(generate.go:586-594): every shared key absent from the target is copied
in. -/
def mergeSharedIntoTarget (shared target : GoMap) : GoMap :=
  shared.foldl
    (fun t kv => if (mapGet t kv.1).isSome then t else mapSet t kv.1 kv.2)
    target

/-- Construction of the `configMap` handed to the sandbox invocation
(generate.go:691-698), applied after the pre-merge has run on the target
config: copy shared entries, copy (pre-merged) target entries, then inject
the reserved `$filename` key last. -/
def buildConfigMap (shared target : GoMap) (filename : GoString) : GoMap :=
  let target' := mergeSharedIntoTarget shared target
  let m := insertAll [] shared
  let m := insertAll m target'
  mapSet m "$filename".data (GoVal.str filename)

/-- The consumer view of the parsed source map:
`smap.Source(line, column)` yields the original file, line and column. -/
abbrev SMap := Int → Int → Option (GoString × Int × Int)

/-- `filepath.Abs` as an oracle: `some` is a successful absolute form, and
on `none` (an error) the code keeps the source path unchanged. -/
abbrev AbsFn := GoString → Option GoString

/-- `translateLocation` (generate.go:911-934): split on `":"`, require
exactly three parts, parse line and column with `strconv.Atoi`, look the
pair up in the source map, and absolutise the original path when
possible. -/
def translateLocation (smap : SMap) (ap : AbsFn) (location : GoString) :
    Option (GoString × Int × Int) :=
  match splitOnChar ':' location with
  | [_, p1, p2] =>
    match goAtoi p1, goAtoi p2 with
    | some line, some column =>
      match smap line column with
      | some (source, l, c) => some ((ap source).getD source, l, c)
      | none => none
    | _, _ => none
  | _ => none

/-- The `bundle.js:` fallback of the frame loop (generate.go:900-906): the
location is the trimmed line from one past the last `bundle.js:` index (the
leading `undle.js` lands in the ignored first colon field). -/
def frameBundle (smap : SMap) (ap : AbsFn) (orig l : GoString) : GoString :=
  match goLastIndex l "bundle.js:".data with
  | none => orig
  | some b =>
    let loc := l.drop (b + 1)
    match translateLocation smap ap loc with
    | some (src, ln, col) =>
      l.take b ++ "(".data ++ src ++ ":".data ++ intToGS ln ++
        ":".data ++ intToGS col ++ ")".data
    | none => orig

/-- One iteration of the frame loop (generate.go:888-907): trim trailing
blanks, prefer a trailing parenthesised location, otherwise the
`bundle.js:` form; an unresolvable frame leaves `lines[i]` untouched. -/
def translateFrame (smap : SMap) (ap : AbsFn) (orig : GoString) : GoString :=
  let l := trimRightST orig
  match goLastIndex l "(".data with
  | some i =>
    if ")".data.isSuffixOf l then
      let loc := (l.drop (i + 1)).dropLast
      match translateLocation smap ap loc with
      | some (src, ln, col) =>
        l.take i ++ "(".data ++ src ++ ":".data ++ intToGS ln ++
          ":".data ++ intToGS col ++ ")".data
      | none => orig
    else frameBundle smap ap orig l
  | none => frameBundle smap ap orig l

/-- The frame loop over the split lines: index 0 (the exception message
line) is never touched, every later line goes through `translateFrame`. -/
def processStackLines (smap : SMap) (ap : AbsFn) : List GoString → List GoString
  | [] => []
  | first :: rest => first :: rest.map (translateFrame smap ap)

/-- `translateStackTrace` (generate.go:886-909). -/
def translateStackTrace (smap : SMap) (ap : AbsFn) (stackTrace : GoString) :
    GoString :=
  intercalateGS "\n".data (processStackLines smap ap (splitOnChar '\n' stackTrace))

/-- The embedded entry-script template (generate.go:468-492), with literal
braces written as their escape codes. -/
def generateTemplateGS : GoString :=
  ("import \x7b parse \x7d from \"@apexlang/core\";\nimport \x7b Context, Writer \x7d from \"@apexlang/core/model\";\nimport \x7b\x7bimportClass\x7d\x7d from \"\x7b\x7bmodule\x7d\x7d\";\n\nfunction resolver(location, from) \x7b\n  const source = resolverCallback(location, from);\n  if (source.startsWith(\"error: \")) \x7b\n    throw source.substring(7);\n  \x7d\n  return source;\n\x7d\n\nexport function generate(spec, config) \x7b\n  const doc = parse(spec, resolver);\n  const context = new Context(config, doc);\n\n  const writer = new Writer();\n  const visitor = new \x7b\x7bvisitorClass\x7d\x7d(writer);\n  context.accept(context, visitor);\n  let source = writer.string();\n\n  return source;\n\x7d\n\njs_exports[\"generate\"] = generate;").data

/-- Rendering of the entry script (generate.go:597-600): replace the first
occurrence of each placeholder, in source order. -/
def renderGenerateTS (module classImport visitorClass : GoString) : GoString :=
  replaceFirst
    (replaceFirst
      (replaceFirst generateTemplateGS "\x7b\x7bmodule\x7d\x7d".data module)
      "\x7b\x7bimportClass\x7d\x7d".data classImport)
    "\x7b\x7bvisitorClass\x7d\x7d".data visitorClass

/-- A target entry of the `generates` mapping (generate.go:454-461). -/
structure Target where
  module : GoString
  visitorClass : GoString
  ifNotExists : Bool
  executable : Bool
  config : GoMap
deriving Inhabited

/-- Outcome of `os.Stat(filename)` in the `ifNotExists` check: the file is
present, absent (`os.IsNotExist`), or stat failed with another error. -/
inductive DestStat where
  | present
  | absent
  | statFailed (msg : GoString)

/-- Outcome fields of `esbuild api.Build` for one target: the error count,
the `%v` rendering of the error slice, the output-file count, and whether
`sourcemap.Parse` accepts the produced map. -/
structure BuildResult where
  numErrors : Nat
  errorsText : GoString
  outputCount : Nat
  smapParseOk : Bool

/-- A `j.Invoke("generate", ...)` failure: a `*v8go.JSError` carrying the
sandbox stack trace, or any other Go error. -/
inductive InvokeErr where
  | jsError (stackTrace : GoString)
  | goError (msg : GoString)

/-- One target of a generation run together with the recorded behavior of
every external collaborator consulted while processing it. -/
structure TargetRun where
  filename : GoString
  target : Target
  destStat : DestStat
  build : GoString → BuildResult
  compileRes : Except GoString Unit
  invoke : Except InvokeErr GoString
  smap : SMap
  absPath : AbsFn
  formatTS : GoString → Except GoString GoString
  astyleFmt : GoString → GoString → Except GoString GoString
  mkdirErr : Option GoString
  writeErr : Option GoString

/-- How processing one target ends (generate.go:564-749): an early `return
err` aborting the whole config run, a silent skip, an aggregated failure
(`appendAndPrintError` + `continue`), or a fully generated file. -/
inductive StepOutcome where
  | abort (e : GoErr)
  | skip
  | failedStep (msg : GoString)
  | done

/-- The body of the per-target loop (generate.go:564-748), one target:
validation, visitor defaulting, the `ifNotExists` check, template
rendering, bundling, source-map parse, sandbox compile and invoke (with
stack-trace translation on a JS error), extension-dispatched formatting,
directory creation, and the file write. -/
def processTarget (r : TargetRun) : StepOutcome :=
  if r.target.module = [] then
    .failedStep ("module is required for ".data ++ r.filename)
  else
    let classImport :=
      if r.target.visitorClass = [] then "DefaultVisitor".data
      else "\x7b ".data ++ r.target.visitorClass ++ " \x7d".data
    let visitorClass :=
      if r.target.visitorClass = [] then "DefaultVisitor".data
      else r.target.visitorClass
    let skipCheck : Option StepOutcome :=
      if r.target.ifNotExists then
        match r.destStat with
        | .statFailed e => some (.abort (.single e))
        | .present => some .skip
        | .absent => none
      else none
    match skipCheck with
    | some s => s
    | none =>
      let generateTS := renderGenerateTS r.target.module classImport visitorClass
      let br := r.build generateTS
      if br.numErrors > 0 then
        .abort (.single ("esbuild returned errors: ".data ++ br.errorsText))
      else if br.outputCount ≠ 2 then
        .abort (.single "esbuild did not produce exactly 2 output files".data)
      else if !br.smapParseOk then
        .abort (.single "could not parse sourcemap".data)
      else
        match r.compileRes with
        | .error e => .failedStep ("Compilation error: ".data ++ e)
        | .ok _ =>
          match r.invoke with
          | .error (.jsError st) => .failedStep (translateStackTrace r.smap r.absPath st)
          | .error (.goError e) => .failedStep ("Generation error: ".data ++ e)
          | .ok source =>
            let ext := goExt r.filename
            let fmtStep : Except GoString GoString :=
              if ext = ".ts".data then
                match r.formatTS source with
                | .error e => .error ("Error formatting TypeScript: ".data ++ e)
                | .ok s => .ok s
              else if ext = ".cs".data then
                match r.astyleFmt source "indent-namespaces break-blocks pad-comma indent=tab style=1tbs".data with
                | .error e => .error ("Error formatting C#: ".data ++ e)
                | .ok s => .ok s
              else if ext = ".java".data ∨ ext = "c".data ∨ ext = "cpp".data ∨
                  ext = "c++".data ∨ ext = "h".data ∨ ext = "hpp".data ∨
                  ext = "h++".data ∨ ext = "m".data then
                match r.astyleFmt source "pad-oper indent=tab style=google".data with
                | .error e => .error ("Error formatting Java/C/C++/Objective-C: ".data ++ e)
                | .ok s => .ok s
              else .ok source
            match fmtStep with
            | .error m => .failedStep m
            | .ok _ =>
              match r.mkdirErr with
              | some e => .failedStep ("Error creating directory: ".data ++ e)
              | none =>
                match r.writeErr with
                | some e => .failedStep ("Error writing file: ".data ++ e)
                | none => .done

/-- The per-target loop of `GenerateCmd.generate` (generate.go:564-749):
a `.abort` outcome is an immediate `return err`; every other outcome moves
on to the next target, aggregating failures. -/
def generateLoopGo : List TargetRun → Option GoErr → Except GoErr (Option GoErr)
  | [], merr => .ok merr
  | r :: rest, merr =>
    match processTarget r with
    | .abort e => .error e
    | .skip => generateLoopGo rest merr
    | .done => generateLoopGo rest merr
    | .failedStep m => generateLoopGo rest (appendAndPrintError merr m)

/-- A target run whose collaborators all succeed; fixture base. -/
def baseRun (fname : GoString) (t : Target) : TargetRun where
  filename := fname
  target := t
  destStat := .absent
  build := fun _ => ⟨0, [], 2, true⟩
  compileRes := .ok ()
  invoke := .ok "generated".data
  smap := fun _ _ => none
  absPath := fun _ => none
  formatTS := fun s => .ok s
  astyleFmt := fun s _ => .ok s
  mkdirErr := none
  writeErr := none

/-- Target `a.txt` with an empty module field. -/
def runC1a : TargetRun := baseRun "a.txt".data ⟨[], "V".data, false, false, []⟩

/-- Target `b.txt` with an empty module field. -/
def runC1b : TargetRun := baseRun "b.txt".data ⟨[], "V".data, false, false, []⟩

/-- A target whose bundler reports one output file instead of two. -/
def rBundleBad : TargetRun :=
  { baseRun "x.ts".data ⟨"mod".data, "V".data, false, false, []⟩ with
    build := fun _ => ⟨0, [], 1, true⟩ }

/-- A sibling target after the bundle failure; its empty module would be an
aggregated validation failure if the loop ever reached it. -/
def rSiblingC8 : TargetRun := baseRun "b.txt".data ⟨[], "V".data, false, false, []⟩

/-- A target whose bundler reports errors. -/
def rBundleErrs : TargetRun :=
  { baseRun "y.ts".data ⟨"mod".data, "V".data, false, false, []⟩ with
    build := fun _ => ⟨1, "boom".data, 2, true⟩ }

/-- The entry script rendered for module `testmod` with the defaulted
visitor identifier. -/
def renderedDefaultTS : GoString :=
  renderGenerateTS "testmod".data "DefaultVisitor".data "DefaultVisitor".data

/-- A target with module `testmod` and an empty visitor class; its bundler
accepts exactly the default-visitor entry script and rejects anything
else with a wrong output count, so a `.done` outcome certifies the script
that was bundled. -/
def rDefaultVisitor : TargetRun :=
  { baseRun "out.txt".data ⟨"testmod".data, [], false, false, []⟩ with
    build := fun ts => if ts = renderedDefaultTS then ⟨0, [], 2, true⟩ else ⟨0, [], 1, true⟩ }

/-- A target `w.txt` with an empty module field, for the validation witness. -/
def rEmptyModule : TargetRun := baseRun "w.txt".data ⟨[], "V".data, false, false, []⟩

/-- Filesystem where every probe finds a plain file and every read fails. -/
def fsReadFailC4 : FS where
  stat := fun _ => .ok false
  readFile := fun _ => .error "boom".data

/-- Path mapping fixture standing for the join against the definitions
directory. -/
def mapPathC4 : GoString → GoString := fun l => "defs/".data ++ l

/-- Filesystem where both `d/x.apex` (a plain file) and `d/x` (a directory)
exist. -/
def fsBothC5 : FS where
  stat := fun p =>
    if p = "d/x.apex".data then .ok false
    else if p = "d/x".data then .ok true
    else .error "no such file".data
  readFile := fun _ => .ok []

/-- Filesystem whose definition file reads successfully with contents that
begin with the sentinel prefix. -/
def fsSentinelFile : FS where
  stat := fun _ => .ok false
  readFile := fun p =>
    if p = "defs/evil.apex".data then .ok "error: oops".data
    else .error "no such file".data

/-- Filesystem whose read genuinely fails with the same underlying message. -/
def fsSentinelIO : FS where
  stat := fun _ => .ok false
  readFile := fun _ => .error "oops".data

/-- Path mapping fixture for the sentinel-collision scenario. -/
def mapPathC10 : GoString → GoString := fun l => "defs/".data ++ l

/-- Shared config fixture: plain keys and a user-supplied value under the
reserved filename key. -/
def sharedC6 : GoMap :=
  [("a".data, .str "sv".data), ("b".data, .str "shared-b".data),
   ("$filename".data, .str "user".data)]

/-- Target config fixture overriding key `b`. -/
def targetC6 : GoMap := [("b".data, .str "tv".data)]

/-- Source map fixture resolving generated position 7:9. -/
def smapW : SMap := fun ln col =>
  if ln = 7 ∧ col = 9 then some ("model.ts".data, (3 : Int), (4 : Int)) else none

/-- Absolutisation fixture prefixing `/a/`. -/
def apW : AbsFn := fun s => some ("/a/".data ++ s)

theorem scanNul_of_mem (buf : Bytes) (h : (0 : Nat) ∈ buf) :
    scanNul buf = some (buf.takeWhile (fun b => b != 0)) := by
  induction buf with
  | nil => cases h
  | cons b rest ih =>
    by_cases hb : b = 0
    · subst hb
      simp [scanNul, List.takeWhile]
    · have hr : (0 : Nat) ∈ rest := by
        rcases List.mem_cons.mp h with h0 | h0
        · exact absurd h0.symm hb
        · exact h0
      have hbt : (b != 0) = true := by simp [hb]
      simp [scanNul, hb, ih hr, List.takeWhile, hbt]

/-- Claim C1.  Samples of the orchestrator's final-result selection: an
empty aggregate is success and a single failure is returned verbatim, but
two aggregated target failures are returned as the combined `multierr`
value — whose message is the `"; "`-join of the individual target messages —
and not as the count-summary error, because the `errorGroup` assertion in
`GenerateCmd.Run` inspects the nil `readConfigs` error instead of the
aggregate, leaving the summary branch dead. -/
theorem generate_run_aggregation_bug :
    generateLoopGo [runC1a, runC1b] none
      = .ok (some (.multi ["module is required for a.txt".data,
                           "module is required for b.txt".data]))
  ∧ generateCmdRun [some (GoErr.multi ["module is required for a.txt".data,
        "module is required for b.txt".data])]
      = some (GoErr.multi ["module is required for a.txt".data,
          "module is required for b.txt".data])
  ∧ goErrMessage (GoErr.multi ["module is required for a.txt".data,
        "module is required for b.txt".data])
      = "module is required for a.txt; module is required for b.txt".data
  ∧ generateCmdRun [some (GoErr.multi ["module is required for a.txt".data,
        "module is required for b.txt".data])]
      ≠ some (.single "generation failed due to 2 error(s)".data)
  ∧ generateCmdRun [] = none
  ∧ generateCmdRun [some (.single "module is required for a.txt".data)]
      = some (.single "module is required for a.txt".data) := by
  refine ⟨rfl, rfl, rfl, ?_, rfl, rfl⟩
  decide

/-- Claim C2, counterexample.  An `Astyle` call in which `alloc_buffer`
succeeds (pointer 64) but the `wastyle` call traps returns on an exit path
that calls `free_buffer` on nothing at all: the base pointer does not get
freed on every exit path. -/
theorem astyle_free_missing_on_trap :
    wasmTrap.alloc (u32 (([] : Bytes).length + 1 + ([] : Bytes).length + 1 + 4)) = .ok 64
  ∧ (Astyle wasmTrap [] []).result = .error (.formatCallErr "wasm trap".data)
  ∧ (Astyle wasmTrap [] []).frees = [] :=
  ⟨rfl, rfl, rfl⟩

/-- Claim C2, amended.  On every exit path of `Astyle` that reaches
extraction of the result text — the call returns formatted text or a
format error — the base pointer handed out by `alloc_buffer` is freed, and
the result pointer read from the result slot is freed exactly when it is
non-zero, regardless of the success flag.  (On the earlier failure exits —
alloc failure, a trapping `wastyle` call, an out-of-bounds result-slot or
buffer read, or a missing terminator — no `free_buffer` call happens; the
deferred module close releases the instance instead.) -/
theorem astyle_frees_on_extraction (m : WasmRun) (s o : Bytes) (t : Bytes)
    (h : (Astyle m s o).result = .ok t ∨
         (Astyle m s o).result = .error (.formatError t)) :
    ∃ p fp, m.alloc (u32 (s.length + 1 + o.length + 1 + 4)) = .ok p ∧
      readUint32Le m (u32 p) = some fp ∧
      (Astyle m s o).frees = u32 p :: (if fp ≠ 0 then [fp] else []) := by
  unfold Astyle at h ⊢
  rcases hA : m.alloc (u32 (s.length + 1 + o.length + 1 + 4)) with e | p <;>
    simp only [hA] at h ⊢
  · rcases h with h | h <;> simp at h
  · rcases hF : m.format (u32 (u32 p + 4)) (u32 (u32 (u32 p + 4) + s.length + 1)) (u32 p)
      with e | r <;> simp only [hF] at h ⊢
    · rcases h with h | h <;> simp at h
    · rcases hR : readUint32Le m (u32 p) with _ | fp <;> simp only [hR] at h ⊢
      · rcases h with h | h <;> simp at h
      · rcases hB : memRead m fp (u32sub m.memSize fp) with _ | buf <;>
          simp only [hB] at h ⊢
        · rcases h with h | h <;> simp at h
        · rcases hS : scanNul buf with _ | txt <;> simp only [hS] at h ⊢
          · rcases h with h | h <;> simp at h
          · exact ⟨p, fp, rfl, hR, by split <;> rfl⟩

/-- Witness for the amended C2 theorem at a concrete successful module run. -/
theorem astyle_frees_on_extraction_witness :
    ∃ p fp, wasmFreeOk.alloc (u32 (([] : Bytes).length + 1 + ([] : Bytes).length + 1 + 4)) = .ok p ∧
      readUint32Le wasmFreeOk (u32 p) = some fp ∧
      (Astyle wasmFreeOk [] []).frees = u32 p :: (if fp ≠ 0 then [fp] else []) :=
  astyle_frees_on_extraction wasmFreeOk [] [] [104, 105] (Or.inl rfl)

/-- Claim C3.  When an `Astyle` call reaches the format step and the
follow-up reads succeed, the result text is the byte run starting at the
little-endian 32-bit pointer read from the result slot and ending at
(excluding) the first NUL byte of the readable window; a success flag other
than 1 makes the call fail with an error carrying exactly that text, and
flag 1 returns the text as the formatted source. -/
theorem astyle_result_extraction (m : WasmRun) (s o : Bytes) (p r fp : Nat)
    (buf : Bytes)
    (h1 : m.alloc (u32 (s.length + 1 + o.length + 1 + 4)) = .ok p)
    (h2 : m.format (u32 (u32 p + 4)) (u32 (u32 (u32 p + 4) + s.length + 1)) (u32 p)
            = .ok r)
    (h3 : readUint32Le m (u32 p) = some fp)
    (h4 : memRead m fp (u32sub m.memSize fp) = some buf)
    (h5 : (0 : Nat) ∈ buf) :
    (Astyle m s o).result =
      if r = 1 then .ok (buf.takeWhile (fun b => b != 0))
      else .error (.formatError (buf.takeWhile (fun b => b != 0))) := by
  unfold Astyle
  simp only [h1, h2, h3, h4, scanNul_of_mem buf h5]
  split <;> rfl

/-- Witness for the C3 theorem at a concrete module run: result slot at 8
points to 32, the window holds `hi\0\0`, the flag is 1. -/
theorem astyle_result_extraction_witness :
    (Astyle wasmExtract [] []).result =
      if 1 = 1 then Except.ok (([104, 105, 0, 0] : Bytes).takeWhile (fun b => b != 0))
      else .error (.formatError (([104, 105, 0, 0] : Bytes).takeWhile (fun b => b != 0))) :=
  astyle_result_extraction wasmExtract [] [] 8 1 32 [104, 105, 0, 0]
    rfl rfl rfl rfl (by decide)

/-- Claim C4.  The resolution callback returns the fixed sentinel for a
missing argument; when the probe succeeds but reading the resolved file
fails it returns `"error: "` followed by the underlying message; and the
sandbox-side resolver raises a script exception carrying the text after the
seven-character prefix exactly when the callback result starts with
`"error: "`, passing every other result through unchanged. -/
theorem resolver_error_channel (fs : FS) (mapPath : GoString → GoString)
    (location loc e : GoString) :
    (resolverCallback fs mapPath [] = "error: resolve: invalid arguments".data)
  ∧ (resolveLocation fs (mapPath location) = .ok loc →
      fs.readFile loc = .error e →
      resolverCallback fs mapPath [location] = "error: ".data ++ e)
  ∧ (∀ s : GoString,
      ("error: ".data.isPrefixOf s = true → jsResolver s = .error (s.drop 7))
    ∧ ("error: ".data.isPrefixOf s = false → jsResolver s = .ok s)) := by
  refine ⟨rfl, ?_, ?_⟩
  · intro h1 h2
    simp only [resolverCallback, h1, h2]
  · intro s
    constructor
    · intro hp
      simp only [jsResolver, hp, if_true]
    · intro hp
      simp only [jsResolver, hp, Bool.false_eq_true, if_false]

/-- Witness for C4: a filesystem whose probing finds `defs/x.apex` but
whose read fails with `boom`, and the sentinel round-trip through the
sandbox-side resolver. -/
theorem resolver_error_channel_witness :
    resolverCallback fsReadFailC4 mapPathC4 ["x".data] = "error: ".data ++ "boom".data
  ∧ jsResolver "error: boom".data = .error "boom".data :=
  ⟨(resolver_error_channel fsReadFailC4 mapPathC4 "x".data "defs/x.apex".data
      "boom".data).2.1 rfl rfl,
   ((resolver_error_channel fsReadFailC4 mapPathC4 "x".data "defs/x.apex".data
      "boom".data).2.2 "error: boom".data).1 rfl⟩

/-- Claim C5.  For a mapped location lacking the `.apex` extension: when
`loc + ".apex"` stats as a plain file it is selected, whatever the bare
location holds — in particular when the bare location is an existing
directory; only when that first probe fails (stat error, or a directory) is
the bare location statted, appending `index.apex` for a directory,
appending `.apex` otherwise, and propagating a bare-stat failure. -/
theorem resolver_probe_preference (fs : FS) (loc : GoString)
    (h : goExt loc ≠ ".apex".data) :
    (fs.stat (loc ++ ".apex".data) = .ok false →
        resolveLocation fs loc = .ok (loc ++ ".apex".data))
  ∧ ((match fs.stat (loc ++ ".apex".data) with
        | .ok isDir => !isDir
        | .error _ => false) = false →
        (fs.stat loc = .ok true →
            resolveLocation fs loc = .ok (loc ++ "/index.apex".data))
      ∧ (fs.stat loc = .ok false →
            resolveLocation fs loc = .ok (loc ++ ".apex".data))
      ∧ (∀ e, fs.stat loc = .error e → resolveLocation fs loc = .error e)) := by
  constructor
  · intro hspec
    simp only [resolveLocation, if_neg h, hspec]
    rfl
  · intro hfail
    refine ⟨?_, ?_, ?_⟩
    · intro hbare
      simp only [resolveLocation, if_neg h, hfail, hbare]
      rfl
    · intro hbare
      simp only [resolveLocation, if_neg h, hfail, hbare]
      rfl
    · intro e' hbare
      simp only [resolveLocation, if_neg h, hfail, hbare]
      rfl

/-- Witness for C5: both `d/x.apex` (plain file) and `d/x` (directory)
exist; the file-with-extension form wins. -/
theorem resolver_probe_preference_witness :
    resolveLocation fsBothC5 "d/x".data = .ok ("d/x".data ++ ".apex".data) :=
  (resolver_probe_preference fsBothC5 "d/x".data (by decide)).1 rfl

/-- Claim C10.  A definition file that reads successfully but whose
contents begin with `"error: "` produces the same callback result as a
host I/O failure with the corresponding message, so the sandbox-side
resolver raises the remainder as a script exception in both cases: a
successful read is indistinguishable from a read failure whenever the
file text starts with the sentinel prefix. -/
theorem sentinel_file_indistinguishable :
    resolverCallback fsSentinelFile mapPathC10 ["evil".data] = "error: oops".data
  ∧ resolverCallback fsSentinelIO mapPathC10 ["evil".data] = "error: oops".data
  ∧ resolverCallback fsSentinelFile mapPathC10 ["evil".data]
      = resolverCallback fsSentinelIO mapPathC10 ["evil".data]
  ∧ jsResolver (resolverCallback fsSentinelFile mapPathC10 ["evil".data])
      = .error "oops".data :=
  ⟨rfl, rfl, rfl, rfl⟩

theorem mapGet_mapSet_self (m : GoMap) (k : GoString) (v : GoVal) :
    mapGet (mapSet m k v) k = some v := by
  simp [mapGet, mapSet]

theorem mapGet_mapSet_ne (m : GoMap) (k k' : GoString) (v : GoVal)
    (h : k ≠ k') : mapGet (mapSet m k v) k' = mapGet m k' := by
  simp [mapGet, mapSet, h]

theorem mapGet_eq_none_of_not_mem (m : GoMap) (k : GoString)
    (h : k ∉ m.map Prod.fst) : mapGet m k = none := by
  induction m with
  | nil => rfl
  | cons kv rest ih =>
    simp only [List.map_cons, List.mem_cons, not_or] at h
    have hk : ¬ kv.1 = k := fun hh => h.1 hh.symm
    simp [mapGet, hk, ih h.2]

theorem not_mem_of_mapGet_none (m : GoMap) (k : GoString)
    (h : mapGet m k = none) : k ∉ m.map Prod.fst := by
  induction m with
  | nil => simp
  | cons kv rest ih =>
    by_cases hk : kv.1 = k
    · simp [mapGet, hk] at h
    · simp only [mapGet, if_neg hk] at h
      have hne : k ≠ kv.1 := fun hh => hk hh.symm
      simp [ih h, hne]

theorem insertAll_get_none (src : GoMap) (m : GoMap) (k : GoString)
    (h : mapGet src k = none) : mapGet (insertAll m src) k = mapGet m k := by
  induction src generalizing m with
  | nil => rfl
  | cons kv rest ih =>
    by_cases hk : kv.1 = k
    · simp [mapGet, hk] at h
    · simp only [mapGet, if_neg hk] at h
      simp only [insertAll, List.foldl_cons] at ih ⊢
      rw [ih _ h, mapGet_mapSet_ne _ _ _ _ hk]

theorem insertAll_get_some (src : GoMap) (m : GoMap) (k : GoString) (v : GoVal)
    (hn : (src.map Prod.fst).Nodup) (h : mapGet src k = some v) :
    mapGet (insertAll m src) k = some v := by
  induction src generalizing m with
  | nil => simp [mapGet] at h
  | cons kv rest ih =>
    simp only [List.map_cons, List.nodup_cons] at hn
    by_cases hk : kv.1 = k
    · simp only [mapGet, if_pos hk] at h
      have hr : mapGet rest k = none := by
        apply mapGet_eq_none_of_not_mem
        rw [← hk]
        exact hn.1
      simp only [insertAll, List.foldl_cons]
      rw [show List.foldl (fun acc kv => mapSet acc kv.1 kv.2) (mapSet m kv.1 kv.2) rest
            = insertAll (mapSet m kv.1 kv.2) rest from rfl,
          insertAll_get_none rest _ k hr, hk, mapGet_mapSet_self, h]
    · simp only [mapGet, if_neg hk] at h
      simp only [insertAll, List.foldl_cons] at ih ⊢
      exact ih (mapSet m kv.1 kv.2) hn.2 h

theorem merge_preserve (s t : GoMap) (k : GoString) (v : GoVal)
    (h : mapGet t k = some v) :
    mapGet (mergeSharedIntoTarget s t) k = some v := by
  induction s generalizing t with
  | nil => exact h
  | cons kv rest ih =>
    simp only [mergeSharedIntoTarget, List.foldl_cons] at ih ⊢
    apply ih
    by_cases hp : (mapGet t kv.1).isSome
    · simpa [hp] using h
    · by_cases hk : kv.1 = k
      · rw [hk] at hp
        simp [h] at hp
      · simpa [hp, mapGet_mapSet_ne _ _ _ _ hk] using h

theorem merge_inherit (s t : GoMap) (k : GoString) (v : GoVal)
    (h1 : mapGet t k = none) (h2 : mapGet s k = some v) :
    mapGet (mergeSharedIntoTarget s t) k = some v := by
  induction s generalizing t with
  | nil => simp [mapGet] at h2
  | cons kv rest ih =>
    simp only [mergeSharedIntoTarget, List.foldl_cons] at ih ⊢
    by_cases hk : kv.1 = k
    · simp only [mapGet, if_pos hk] at h2
      have hp : (mapGet t kv.1).isSome = false := by rw [hk, h1]; rfl
      rw [if_neg (by simp [hp])]
      have : mapGet (mapSet t kv.1 kv.2) k = some v := by
        rw [← hk] at h1 ⊢
        rw [mapGet_mapSet_self, h2]
      exact merge_preserve rest _ k v this
    · simp only [mapGet, if_neg hk] at h2
      apply ih _ _ h2
      by_cases hp : (mapGet t kv.1).isSome
      · simpa [hp] using h1
      · simpa [hp, mapGet_mapSet_ne _ _ _ _ hk] using h1

theorem merge_nodup (s t : GoMap) (hnt : (t.map Prod.fst).Nodup) :
    ((mergeSharedIntoTarget s t).map Prod.fst).Nodup := by
  induction s generalizing t with
  | nil => exact hnt
  | cons kv rest ih =>
    simp only [mergeSharedIntoTarget, List.foldl_cons] at ih ⊢
    apply ih
    by_cases hp : (mapGet t kv.1).isSome
    · simpa [hp] using hnt
    · have hnone : mapGet t kv.1 = none := by
        cases hx : mapGet t kv.1
        · rfl
        · rw [hx] at hp
          simp at hp
      rw [if_neg (by simp [hp])]
      simp only [mapSet, List.map_cons, List.nodup_cons]
      exact ⟨not_mem_of_mapGet_none t kv.1 hnone, hnt⟩

/-- Claim C6.  In the merged config map handed to the sandbox invocation:
a key (other than the reserved one) present in the pre-merge target config
takes the target's value; a key present only in the shared config inherits
the shared value; and the reserved `$filename` key is always present,
equals the target's destination filename, and overrides any user-supplied
binding because it is stored last. -/
theorem config_merge_semantics (shared target : GoMap) (filename : GoString)
    (k : GoString) (v : GoVal)
    (hnt : (target.map Prod.fst).Nodup)
    (hk : k ≠ "$filename".data) :
    (mapGet target k = some v →
        mapGet (buildConfigMap shared target filename) k = some v)
  ∧ (mapGet target k = none → mapGet shared k = some v →
        mapGet (buildConfigMap shared target filename) k = some v)
  ∧ mapGet (buildConfigMap shared target filename) "$filename".data
      = some (GoVal.str filename) := by
  refine ⟨?_, ?_, ?_⟩
  · intro h
    unfold buildConfigMap
    rw [mapGet_mapSet_ne _ _ _ _ (Ne.symm hk)]
    exact insertAll_get_some _ _ _ _ (merge_nodup shared target hnt)
      (merge_preserve shared target k v h)
  · intro h1 h2
    unfold buildConfigMap
    rw [mapGet_mapSet_ne _ _ _ _ (Ne.symm hk)]
    exact insertAll_get_some _ _ _ _ (merge_nodup shared target hnt)
      (merge_inherit shared target k v h1 h2)
  · unfold buildConfigMap
    exact mapGet_mapSet_self _ _ _

/-- Witness for C6 on concrete maps: target key `b` wins, shared-only key
`a` is inherited, and the reserved key overrides the user-supplied
`$filename` binding. -/
theorem config_merge_semantics_witness :
    mapGet (buildConfigMap sharedC6 targetC6 "out.ts".data) "b".data
      = some (.str "tv".data)
  ∧ mapGet (buildConfigMap sharedC6 targetC6 "out.ts".data) "a".data
      = some (.str "sv".data)
  ∧ mapGet (buildConfigMap sharedC6 targetC6 "out.ts".data) "$filename".data
      = some (.str "out.ts".data) :=
  ⟨(config_merge_semantics sharedC6 targetC6 "out.ts".data "b".data
      (.str "tv".data) (by decide) (by decide)).1 rfl,
   (config_merge_semantics sharedC6 targetC6 "out.ts".data "a".data
      (.str "sv".data) (by decide) (by decide)).2.1 rfl rfl,
   (config_merge_semantics sharedC6 targetC6 "out.ts".data "a".data
      (.str "sv".data) (by decide) (by decide)).2.2⟩

/-- Claim C7.  Stack-trace translation touches only lines after the first;
every frame is either left byte-for-byte unchanged or rewritten to a
`prefix(origFile:origLine:origCol)` form whose location was resolved by the
source map; a frame with a trailing parenthesised location or a
`bundle.js:` marker that the map resolves is rewritten accordingly; and —
for an arbitrary source map — a frame is left byte-for-byte unchanged
whenever the location it carries fails to resolve (the map has no entry
for it, or it does not parse), covering every branch: an unresolvable
parenthesised location, an unresolvable `bundle.js:` location with or
without a stray `(`, and a frame carrying no location marker at all.
Translation is a total function of the input: it never fails the overall
operation. -/
theorem stack_trace_translation (smap : SMap) (ap : AbsFn)
    (first : GoString) (rest : List GoString) (orig : GoString) :
    (processStackLines smap ap (first :: rest)
        = first :: rest.map (translateFrame smap ap))
  ∧ (translateFrame smap ap orig = orig
      ∨ ∃ pre loc src ln col,
          translateLocation smap ap loc = some (src, ln, col)
        ∧ translateFrame smap ap orig
            = pre ++ "(".data ++ src ++ ":".data ++ intToGS ln ++
              ":".data ++ intToGS col ++ ")".data)
  ∧ ((∀ loc, translateLocation smap ap loc = none) →
        translateFrame smap ap orig = orig)
  ∧ (∀ i src ln col,
        goLastIndex (trimRightST orig) "(".data = some i →
        ")".data.isSuffixOf (trimRightST orig) = true →
        translateLocation smap ap (((trimRightST orig).drop (i + 1)).dropLast)
          = some (src, ln, col) →
        translateFrame smap ap orig
          = (trimRightST orig).take i ++ "(".data ++ src ++ ":".data ++
            intToGS ln ++ ":".data ++ intToGS col ++ ")".data)
  ∧ (∀ b src ln col,
        goLastIndex (trimRightST orig) "(".data = none →
        goLastIndex (trimRightST orig) "bundle.js:".data = some b →
        translateLocation smap ap ((trimRightST orig).drop (b + 1))
          = some (src, ln, col) →
        translateFrame smap ap orig
          = (trimRightST orig).take b ++ "(".data ++ src ++ ":".data ++
            intToGS ln ++ ":".data ++ intToGS col ++ ")".data)
  ∧ (∀ i,
        goLastIndex (trimRightST orig) "(".data = some i →
        ")".data.isSuffixOf (trimRightST orig) = true →
        translateLocation smap ap (((trimRightST orig).drop (i + 1)).dropLast)
          = none →
        translateFrame smap ap orig = orig)
  ∧ (∀ b,
        goLastIndex (trimRightST orig) "(".data = none →
        goLastIndex (trimRightST orig) "bundle.js:".data = some b →
        translateLocation smap ap ((trimRightST orig).drop (b + 1)) = none →
        translateFrame smap ap orig = orig)
  ∧ (∀ i b,
        goLastIndex (trimRightST orig) "(".data = some i →
        ")".data.isSuffixOf (trimRightST orig) = false →
        goLastIndex (trimRightST orig) "bundle.js:".data = some b →
        translateLocation smap ap ((trimRightST orig).drop (b + 1)) = none →
        translateFrame smap ap orig = orig)
  ∧ (goLastIndex (trimRightST orig) "(".data = none →
        goLastIndex (trimRightST orig) "bundle.js:".data = none →
        translateFrame smap ap orig = orig)
  ∧ (∀ i,
        goLastIndex (trimRightST orig) "(".data = some i →
        ")".data.isSuffixOf (trimRightST orig) = false →
        goLastIndex (trimRightST orig) "bundle.js:".data = none →
        translateFrame smap ap orig = orig) := by
  refine ⟨rfl, ?_, ?_, ?_, ?_, ?_, ?_, ?_, ?_, ?_⟩
  · cases hI : goLastIndex (trimRightST orig) "(".data with
    | none =>
      simp only [translateFrame, hI]
      cases hB : goLastIndex (trimRightST orig) "bundle.js:".data with
      | none => exact Or.inl (by simp only [frameBundle, hB])
      | some b =>
        rcases hT : translateLocation smap ap ((trimRightST orig).drop (b + 1))
          with _ | ⟨src, ln, col⟩
        · exact Or.inl (by simp only [frameBundle, hB, hT])
        · exact Or.inr ⟨(trimRightST orig).take b, (trimRightST orig).drop (b + 1),
            src, ln, col, hT, by simp only [frameBundle, hB, hT]⟩
    | some i =>
      simp only [translateFrame, hI]
      by_cases hS : ")".data.isSuffixOf (trimRightST orig) = true
      · rcases hT : translateLocation smap ap (((trimRightST orig).drop (i + 1)).dropLast)
          with _ | ⟨src, ln, col⟩
        · exact Or.inl (by simp only [hS, if_true, hT])
        · exact Or.inr ⟨(trimRightST orig).take i,
            ((trimRightST orig).drop (i + 1)).dropLast,
            src, ln, col, hT, by simp only [hS, if_true, hT]⟩
      · cases hB : goLastIndex (trimRightST orig) "bundle.js:".data with
        | none => exact Or.inl (by simp [hS, frameBundle, hB])
        | some b =>
          rcases hT : translateLocation smap ap ((trimRightST orig).drop (b + 1))
            with _ | ⟨src, ln, col⟩
          · exact Or.inl (by simp [hS, frameBundle, hB, hT])
          · exact Or.inr ⟨(trimRightST orig).take b, (trimRightST orig).drop (b + 1),
              src, ln, col, hT, by simp [hS, frameBundle, hB, hT]⟩
  · intro hall
    simp only [translateFrame, frameBundle, hall]
    repeat' split
    all_goals rfl
  · intro i src ln col h1 h2 h3
    simp only [translateFrame, h1, h2, if_true, h3]
  · intro b src ln col h0 h1 h2
    simp only [translateFrame, h0, frameBundle, h1, h2]
  · intro i h1 h2 h3
    simp only [translateFrame, h1, h2, if_true, h3]
  · intro b h0 h1 h2
    simp only [translateFrame, h0, frameBundle, h1, h2]
  · intro i b h1 h2 h3 h4
    simp only [translateFrame, h1]
    simp [h2, frameBundle, h3, h4]
  · intro h0 h1
    simp only [translateFrame, h0, frameBundle, h1]
  · intro i h1 h2 h3
    simp only [translateFrame, h1]
    simp [h2, frameBundle, h3]

/-- Witness for C7 under the nonempty map resolving only 7:9: the frame
`  at gen (bundle.js:7:9)` is rewritten to `model.ts:3:4` absolutised under
`/a/`, while the frame `  at gen (bundle.js:1:2)`, whose location the same
map does not resolve, is left byte-for-byte unchanged. -/
theorem stack_trace_translation_witness :
    (translateFrame smapW apW "  at gen (bundle.js:7:9)".data
      = (trimRightST "  at gen (bundle.js:7:9)".data).take 9 ++ "(".data ++
        "/a/model.ts".data ++ ":".data ++ intToGS 3 ++ ":".data ++
        intToGS 4 ++ ")".data)
  ∧ translateFrame smapW apW "  at gen (bundle.js:1:2)".data
      = "  at gen (bundle.js:1:2)".data :=
  ⟨(stack_trace_translation smapW apW [] [] "  at gen (bundle.js:7:9)".data).2.2.2.1
      9 "/a/model.ts".data 3 4 rfl rfl rfl,
   (stack_trace_translation smapW apW [] [] "  at gen (bundle.js:1:2)".data).2.2.2.2.2.1
      9 rfl rfl rfl⟩

/-- Claim C8, counterexample.  A target whose bundler produces one output
file instead of two makes the per-target loop return the bundle error
immediately: the sibling target queued after it — which, processed alone,
would contribute an aggregated validation failure — is never attempted, so
a bundle failure does not abort only the target in progress. -/
theorem bundle_error_skips_siblings :
    generateLoopGo [rBundleBad, rSiblingC8] none
      = .error (.single "esbuild did not produce exactly 2 output files".data)
  ∧ generateLoopGo [rSiblingC8] none
      = .ok (some (.single "module is required for b.txt".data)) :=
  ⟨rfl, rfl⟩

/-- Claim C8, amended.  A target whose bundler reports errors, or produces
an output-file count different from the expected JavaScript-plus-source-map
pair, fails with the corresponding bundle error — and this failure aborts
the whole per-config generation run: `generate` returns that error at once,
whatever targets remain, so sibling targets of the same config are not
attempted (further config documents of the same command invocation are
still processed, their results aggregated by `Run`). -/
theorem bundle_error_aborts_config (r : TargetRun) (rest : List TargetRun)
    (merr : Option GoErr) (br : BuildResult)
    (hm : r.target.module ≠ []) (hv : r.target.visitorClass ≠ [])
    (hni : r.target.ifNotExists = false)
    (hbr : r.build (renderGenerateTS r.target.module
        ("\x7b ".data ++ r.target.visitorClass ++ " \x7d".data)
        r.target.visitorClass) = br) :
    (0 < br.numErrors →
      generateLoopGo (r :: rest) merr
        = .error (.single ("esbuild returned errors: ".data ++ br.errorsText)))
  ∧ (br.numErrors = 0 → br.outputCount ≠ 2 →
      generateLoopGo (r :: rest) merr
        = .error (.single "esbuild did not produce exactly 2 output files".data)) := by
  constructor
  · intro hb
    have hpt : processTarget r
        = .abort (.single ("esbuild returned errors: ".data ++ br.errorsText)) := by
      unfold processTarget
      simp only [if_neg hm, if_neg hv, hni, Bool.false_eq_true, if_false, hbr]
      rw [if_pos hb]
    unfold generateLoopGo
    rw [hpt]
  · intro hb0 hoc
    have hpt : processTarget r
        = .abort (.single "esbuild did not produce exactly 2 output files".data) := by
      unfold processTarget
      simp only [if_neg hm, if_neg hv, hni, Bool.false_eq_true, if_false, hbr, hb0,
        lt_irrefl, if_pos hoc]
    unfold generateLoopGo
    rw [hpt]

/-- Witness for the amended C8 theorem: a concrete target whose bundler
reports one error with text `boom`. -/
theorem bundle_error_aborts_config_witness :
    generateLoopGo [rBundleErrs] none
      = .error (.single ("esbuild returned errors: ".data ++ "boom".data)) :=
  (bundle_error_aborts_config rBundleErrs [] none ⟨1, "boom".data, 2, true⟩
    (by decide) (by decide) rfl rfl).1 (by decide)

set_option maxHeartbeats 8000000 in
/-- Claim C9.  A target with an empty module field fails with the
validation error, which is aggregated while the loop moves on to the
sibling targets — none of that target's remaining steps run, since the
equation holds for every recorded collaborator behavior; a target whose
module is present but whose visitor class is empty proceeds with the
default visitor identifier substituted into the entry script (the bundler
fixture accepts exactly the default-visitor rendering, so the `.done`
outcome certifies what was bundled). -/
theorem target_validation_and_default_visitor (r : TargetRun)
    (rest : List TargetRun) (merr : Option GoErr)
    (hm : r.target.module = []) :
    generateLoopGo (r :: rest) merr
      = generateLoopGo rest
          (appendAndPrintError merr ("module is required for ".data ++ r.filename))
  ∧ processTarget r = .failedStep ("module is required for ".data ++ r.filename)
  ∧ processTarget rDefaultVisitor = .done
  ∧ containsSub renderedDefaultTS "new DefaultVisitor(writer)".data = true
  ∧ containsSub renderedDefaultTS "from \"testmod\"".data = true
  ∧ containsSub renderedDefaultTS "\x7b\x7bvisitorClass\x7d\x7d".data = false := by
  have hpt : processTarget r
      = .failedStep ("module is required for ".data ++ r.filename) := by
    unfold processTarget
    rw [if_pos hm]
  refine ⟨?_, hpt, rfl, rfl, rfl, rfl⟩
  conv_lhs => rw [generateLoopGo, hpt]

/-- Witness for C9 at the concrete empty-module target `w.txt`. -/
theorem target_validation_witness :
    generateLoopGo [rEmptyModule] none
      = generateLoopGo []
          (appendAndPrintError none ("module is required for ".data ++ "w.txt".data))
  ∧ processTarget rEmptyModule
      = .failedStep ("module is required for ".data ++ "w.txt".data) :=
  ⟨(target_validation_and_default_visitor rEmptyModule [] none rfl).1,
   (target_validation_and_default_visitor rEmptyModule [] none rfl).2.1⟩
